import Mathlib

/-!
Verification of the habit-tracking backend "la-web-definitiva-backend".

The development shallowly embeds the parts of the repository the claims
are about: the SQLite-backed habit completion store (`src/database.py`
and the per-user variant in `src/config.py`), the encouragement summary
and the weekly rollup of `src/main.py`, the cron-based reminder jobs and
the reminder broadcast loop of `src/main.py`, user registration from
`src/config.py`, and the session authenticator described only by the
specification.  Tables with a UNIQUE key constraint are modelled as
partial maps from the key to the stored integer, stateful operations as
explicit state-passing functions, and fallible operations as values of
`Except`.
-/

namespace WebDefinitiva

/-- Python truthiness of the stored `completado` integer column: a SQLite
integer is truthy exactly when it is nonzero. -/
def truthy (v : Int) : Bool := v != 0

/-- Row key of the `habitos` table in `src/database.py`; the schema declares
`UNIQUE(chat_id, fecha, habito)`, so a table state is a partial map from this
key to the stored `completado` value. -/
structure HabitoKey where
  chat_id : Int
  fecha : String
  habito : String
deriving DecidableEq

/-- Row key of the `habitos_diarios` table in `src/config.py`; the schema
declares `UNIQUE(user_id, habito_config_id, fecha)`. -/
structure ClaveDiaria where
  user_id : Int
  habito_config_id : Int
  fecha : String
deriving DecidableEq

/-- State of a completion table with a UNIQUE key: a partial map from the key
to the stored `completado` integer (`none` when no row exists). -/
abbrev MapaCompletado (κ : Type) := κ → Option Int

/-- Common shape of `toggle_habito` in `src/database.py` (lines 212-242) and
`src/config.py` (lines 411-429): SELECT the row for the key; if it exists,
UPDATE `completado` to `0` when the stored value is truthy and to `1`
otherwise; if it does not exist, INSERT the row with `completado = 1`. -/
def toggleClave {κ : Type} [DecidableEq κ] (db : MapaCompletado κ) (k : κ) :
    MapaCompletado κ :=
  match db k with
  | some v => fun q => if q = k then some (if truthy v then 0 else 1) else db q
  | none => fun q => if q = k then some 1 else db q

/-- Completion state of a key as the code reads it back
(`bool(row["completado"])` in `get_habitos_hoy`; an absent row reads as
`False`). -/
def estadoClave {κ : Type} (db : MapaCompletado κ) (k : κ) : Bool :=
  match db k with
  | some v => truthy v
  | none => false

/-- The result of `n` consecutive toggles of one key. -/
def toggleIterClave {κ : Type} [DecidableEq κ] (db : MapaCompletado κ) (k : κ) :
    Nat → MapaCompletado κ
  | 0 => db
  | n + 1 => toggleClave (toggleIterClave db k n) k

/-- State of the `habitos` table of `src/database.py`. -/
abbrev HabitosDb := MapaCompletado HabitoKey

/-- State of the `habitos_diarios` table of `src/config.py`. -/
abbrev DiariosDb := MapaCompletado ClaveDiaria

namespace Database

/-- The function `toggle_habito(chat_id, fecha, habito)` of `src/database.py`:
flip the stored completion value of the row, inserting it as completed when
absent. -/
def toggle_habito (db : HabitosDb) (chat_id : Int) (fecha habito : String) :
    HabitosDb :=
  toggleClave db ⟨chat_id, fecha, habito⟩

/-- The completion state one key reports through `get_habitos_hoy` of
`src/database.py`: `bool(completado)` of the row, `False` when absent. -/
def estado_habito (db : HabitosDb) (chat_id : Int) (fecha habito : String) :
    Bool :=
  estadoClave db ⟨chat_id, fecha, habito⟩

/-- Iterated `toggle_habito` on one key. -/
def toggle_habito_n (db : HabitosDb) (chat_id : Int) (fecha habito : String)
    (n : Nat) : HabitosDb :=
  toggleIterClave db ⟨chat_id, fecha, habito⟩ n

/-- The five default habit keys of `habitos_default` in `get_habitos_hoy` of
`src/database.py`. -/
def habitos_default : List String :=
  ["leer", "meditar", "ducha", "ejercicio", "proyecto"]

/-- The dictionary returned by `get_habitos_hoy(chat_id, fecha)` of
`src/database.py`, over the five default habit keys: every key starts at
`False` and is overwritten with `bool(completado)` of its row when one
exists. -/
def get_habitos_hoy (db : HabitosDb) (chat_id : Int) (fecha : String) :
    List (String × Bool) :=
  habitos_default.map (fun h => (h, estado_habito db chat_id fecha h))

end Database

namespace Config

/-- The function `toggle_habito(user_id, habito_config_id, fecha)` of
`src/config.py`: flip the stored completion value of the row of
`habitos_diarios`, inserting it as completed when absent. -/
def toggle_habito (db : DiariosDb) (user_id habito_config_id : Int)
    (fecha : String) : DiariosDb :=
  toggleClave db ⟨user_id, habito_config_id, fecha⟩

/-- The completion state one key of `habitos_diarios` reports
(`COALESCE(hd.completado, 0)` read as a boolean in `get_habitos_hoy` of
`src/config.py`). -/
def estado_habito (db : DiariosDb) (user_id habito_config_id : Int)
    (fecha : String) : Bool :=
  estadoClave db ⟨user_id, habito_config_id, fecha⟩

/-- Iterated `toggle_habito` of `src/config.py` on one key. -/
def toggle_habito_n (db : DiariosDb) (user_id habito_config_id : Int)
    (fecha : String) (n : Nat) : DiariosDb :=
  toggleIterClave db ⟨user_id, habito_config_id, fecha⟩ n

end Config

/-- The qualitative closing message buckets of `cmd_resumen` in
`src/main.py`. -/
inductive Tier where
  | perfecto
  | buenTrabajo
  | empezado
  | sinEmpezar
deriving DecidableEq

/-- The encouragement selector at the end of `cmd_resumen` in `src/main.py`
(lines 265-272): `if completados == total` then the perfect-day message,
`elif completados >= 3` good progress, `elif completados > 0` started, else
not started. -/
def encouragementTier (completados total : Nat) : Tier :=
  if completados = total then .perfecto
  else if 3 ≤ completados then .buenTrabajo
  else if 0 < completados then .empezado
  else .sinEmpezar

/-- A proleptic Gregorian calendar date, as `datetime.date` carries it. -/
structure Fecha where
  year : Int
  month : Nat
  day : Nat
deriving DecidableEq

/-- Gregorian leap-year rule, as `datetime` implements it. -/
def bisiesto (y : Int) : Bool :=
  (y % 4 == 0 && y % 100 != 0) || y % 400 == 0

/-- Number of days of a month in the Gregorian calendar. -/
def diasEnMes (y : Int) (m : Nat) : Nat :=
  if m = 2 then (if bisiesto y then 29 else 28)
  else if m = 4 ∨ m = 6 ∨ m = 9 ∨ m = 11 then 30
  else 31

/-- Validity of a date, which is what `datetime.strptime(fecha, "%Y-%m-%d")`
enforces before the weekly rollup runs. -/
def fechaValida (f : Fecha) : Prop :=
  1 ≤ f.month ∧ f.month ≤ 12 ∧ 1 ≤ f.day ∧ f.day ≤ diasEnMes f.year f.month

instance (f : Fecha) : Decidable (fechaValida f) := by
  unfold fechaValida; infer_instance

/-- The previous calendar date. -/
def diaAnterior (f : Fecha) : Fecha :=
  if 1 < f.day then ⟨f.year, f.month, f.day - 1⟩
  else if 1 < f.month then ⟨f.year, f.month - 1, diasEnMes f.year (f.month - 1)⟩
  else ⟨f.year - 1, 12, 31⟩

/-- Calendar subtraction `fecha_base - timedelta(days=n)`: the n-fold
previous calendar date. -/
def restarDias (f : Fecha) : Nat → Fecha
  | 0 => f
  | n + 1 => diaAnterior (restarDias f n)

/-- Chronological (lexicographic year, month, day) strict order on dates. -/
def fechaLt (a b : Fecha) : Prop :=
  a.year < b.year
  ∨ (a.year = b.year
     ∧ (a.month < b.month ∨ (a.month = b.month ∧ a.day < b.day)))

/-- Two-digit zero padding, as `strftime` applies to months, days, hours and
minutes. -/
def pad2 (n : Nat) : String :=
  if n < 10 then "0" ++ toString n else toString n

/-- The date format `strftime("%Y-%m-%d")` used as the `fecha` key of the
`habitos` table. -/
def formatFecha (f : Fecha) : String :=
  toString f.year ++ "-" ++ pad2 f.month ++ "-" ++ pad2 f.day

/-- The date sequence of `get_habitos_semana` in `src/main.py` (lines
595-612): `for i in range(6, -1, -1)` collect `fecha_base - timedelta(days=i)`,
that is days 6, 5, ..., 1, 0 before the base date, in that order. -/
def semanaFechas (f : Fecha) : List Fecha :=
  ((List.range 7).reverse).map (fun i => restarDias f i)

/-- One entry of the weekly rollup: date, habit states for that day,
completed count and fixed total of 5. -/
structure DiaResumen where
  fecha : Fecha
  habitos : List (String × Bool)
  completados : Nat
  total : Nat
deriving DecidableEq

/-- The endpoint `get_habitos_semana` of `src/main.py`: for each of the seven
days ending at the base date it reports the habit states of the first
registered user for that day, the completed count and `total = 5`. -/
def get_habitos_semana (db : HabitosDb) (chat_id : Int) (fecha_base : Fecha) :
    List DiaResumen :=
  ((List.range 7).reverse).map (fun i =>
    let dia := restarDias fecha_base i
    let estados := Database.get_habitos_hoy db chat_id (formatFecha dia)
    { fecha := dia
      habitos := estados
      completados := estados.countP (fun p => p.2)
      total := 5 })

/-- A wall-clock minute: the granularity at which the scheduler matches
reminder times. -/
structure HoraTick where
  hour : Nat
  minute : Nat
deriving DecidableEq

/-- Formatting of a wall-clock minute as an `HH:MM` string. -/
def formatHHMM (t : HoraTick) : String :=
  pad2 t.hour ++ ":" ++ pad2 t.minute

/-- One scheduled reminder job: its scheduler id, the `CronTrigger` hour and
minute fields and the reminder kind passed to `enviar_recordatorio`. -/
structure CronJob where
  id : String
  hour : Nat
  minute : Nat
  tipo : String
deriving DecidableEq

/-- The four jobs registered by `configurar_recordatorios` of `src/main.py`
(lines 373-417): morning at 7:00, midday at 14:00, evening at 22:00 and the
daily summary at 22:30, each with `CronTrigger(hour=h, minute=m)`. -/
def configurar_recordatorios : List CronJob :=
  [⟨"recordatorio_manana", 7, 0, "manana"⟩,
   ⟨"recordatorio_mediodia", 14, 0, "habitos_mediodia"⟩,
   ⟨"recordatorio_noche", 22, 0, "noche"⟩,
   ⟨"recordatorio_resumen", 22, 30, "resumen_noche"⟩]

/-- APScheduler `CronTrigger(hour=h, minute=m)` semantics at minute
granularity: the job fires on a wall-clock minute exactly when both fields
match it. -/
def cronFires (j : CronJob) (t : HoraTick) : Bool :=
  j.hour == t.hour && j.minute == t.minute

/-- The (kind, recipient) notifications dispatched on one wall-clock minute:
every job whose trigger matches the minute sends its reminder kind to every
registered user. -/
def enviosEnTick (usuarios : List Int) (t : HoraTick) : List (String × Int) :=
  ((configurar_recordatorios.filter (fun j => cronFires j t)).map
    (fun j => usuarios.map (fun u => (j.tipo, u)))).flatten

/-- Outcome of one delivery attempt inside `enviar_recordatorio` of
`src/main.py`: either the message was sent, or the exception was caught by
the per-user `try/except` block and logged. -/
inductive EnvioResultado where
  | enviado
  | errorRegistrado (mensaje : String)
deriving DecidableEq

/-- The broadcast loop of `enviar_recordatorio` in `src/main.py` (lines
325-357): for every registered user, render and send the reminder inside a
`try` block; an exception raised for one user is caught, logged, and the
loop moves on to the next user.  `intento chat_id` abstracts the rendering
and `bot.send_message` call for one recipient. -/
def enviar_recordatorio (usuarios : List Int)
    (intento : Int → Except String Unit) : List (Int × EnvioResultado) :=
  usuarios.map (fun chat_id =>
    match intento chat_id with
    | .ok _ => (chat_id, .enviado)
    | .error e => (chat_id, .errorRegistrado e))

/-- Failure of session resolution. -/
inductive AuthError where
  | unauthenticated
deriving DecidableEq

/-- Modelled from the spec: the Session Authenticator of spec section 4.5 is
absent from `src/`; the spec describes it as a process-wide in-memory mapping
from opaque tokens to user ids. -/
abbrev Sesiones := List (String × Int)

/-- Modelled from the spec: `createSession(user) -> token` generates a fresh
random opaque token and stores `token -> user.id`; the generated token is
passed explicitly here. -/
def createSession (s : Sesiones) (token : String) (user_id : Int) : Sesiones :=
  (token, user_id) :: s

/-- Modelled from the spec: `resolveSession(token) -> user.id`, failing with
`Unauthenticated` when the token is unknown. -/
def resolveSession (s : Sesiones) (token : String) : Except AuthError Int :=
  match s.find? (fun p => p.1 == token) with
  | some p => .ok p.2
  | none => .error .unauthenticated

/-- A row of the `users` table of `src/config.py` (the fields
`registrar_usuario` inserts; `email` is UNIQUE). -/
structure UserRow where
  id : Int
  email : String
  password_hash : String
  salt : String
  nombre : Option String
  fecha_registro : String
deriving DecidableEq

/-- The store state `registrar_usuario` touches: the `users` rows, the
`user_config` rows (by user id) and the AUTOINCREMENT counter. -/
structure UsersState where
  users : List UserRow
  user_config : List Int
  next_id : Int
deriving DecidableEq

/-- The dictionary `registrar_usuario` returns. -/
structure RegResultado where
  ok : Bool
  user_id : Option Int
  error : Option String
deriving DecidableEq

/-- The function `registrar_usuario` of `src/config.py` (lines 260-278):
normalise the email with `email.lower().strip()`, INSERT the user row and its
`user_config` row and commit; a `sqlite3.IntegrityError` — raised exactly when
the UNIQUE email already exists — is caught and turned into
`ok = False` with a human-readable message, and the connection is closed
without committing, leaving the store unchanged.  `hashFn salt password`
abstracts `_hash_password` and `ahora` the registration timestamp. -/
def registrar_usuario (st : UsersState) (email password : String)
    (nombre : Option String) (salt : String)
    (hashFn : String → String → String) (ahora : String) :
    RegResultado × UsersState :=
  let e := (email.toLower).trim
  if st.users.any (fun r => r.email == e) then
    ({ ok := false, user_id := none, error := some "Ya existe una cuenta con ese email" }, st)
  else
    ({ ok := true, user_id := some st.next_id, error := none },
     { users := st.users ++
         [{ id := st.next_id, email := e, password_hash := hashFn salt password,
            salt := salt, nombre := nombre, fecha_registro := ahora }]
       user_config := st.user_config ++ [st.next_id]
       next_id := st.next_id + 1 })

/-- The whitelist `habitos_validos` of `toggle_habito_api` in
`src/main.py`. -/
def habitos_validos : List String :=
  ["leer", "meditar", "ducha", "ejercicio", "proyecto"]

/-- The HTTP error detail of `toggle_habito_api` for a habit name outside the
whitelist. -/
def detalle_habito_no_valido : String :=
  "Hábito no válido. Válidos: [\x27leer\x27, \x27meditar\x27, \x27ducha\x27, \x27ejercicio\x27, \x27proyecto\x27]"

/-- Response of the toggle endpoint: either the updated habit states or an
`HTTPException` with a status code and detail. -/
inductive ApiRespuesta where
  | ok (fecha habito : String) (habitos : List (String × Bool))
  | httpError (status : Nat) (detail : String)

/-- The state the toggle endpoint reads and writes: the registered users (in
`SELECT * FROM users` order) and the `habitos` table. -/
structure ApiEstado where
  usuarios : List Int
  habitos : HabitosDb

/-- The endpoint `toggle_habito_api` of `src/main.py` (lines 557-576):
reject a habit name outside `habitos_validos` with HTTP 400 before touching
the database; with no registered user answer HTTP 404; otherwise toggle the
habit of the first registered user and return the new states. -/
def toggle_habito_api (st : ApiEstado) (fecha habito : String) :
    ApiRespuesta × ApiEstado :=
  if habito ∉ habitos_validos then
    (.httpError 400 detalle_habito_no_valido, st)
  else
    match st.usuarios with
    | [] => (.httpError 404 "No hay usuarios registrados", st)
    | chat_id :: _ =>
        let db2 := Database.toggle_habito st.habitos chat_id fecha habito
        (.ok fecha habito (Database.get_habitos_hoy db2 chat_id fecha),
         { st with habitos := db2 })

/-! ## Toggle lemmas shared by both completion tables -/

/-- Toggling a key inverts its completion state. -/
theorem estadoClave_toggleClave {κ : Type} [DecidableEq κ]
    (db : MapaCompletado κ) (k : κ) :
    estadoClave (toggleClave db k) k = ! estadoClave db k := by
  cases h : db k with
  | none =>
      simp only [toggleClave, estadoClave, h]
      simp [truthy]
  | some v =>
      simp only [toggleClave, estadoClave, h]
      cases hv : truthy v <;> simp [hv, truthy]

/-- Toggling a key leaves every other key's row untouched. -/
theorem toggleClave_ne {κ : Type} [DecidableEq κ]
    (db : MapaCompletado κ) (k q : κ) (hne : q ≠ k) :
    toggleClave db k q = db q := by
  cases h : db k <;> simp [toggleClave, h, hne]

/-- Toggling a key leaves every other key's completion state untouched. -/
theorem estadoClave_toggleClave_ne {κ : Type} [DecidableEq κ]
    (db : MapaCompletado κ) (k q : κ) (hne : q ≠ k) :
    estadoClave (toggleClave db k) q = estadoClave db q := by
  unfold estadoClave
  rw [toggleClave_ne db k q hne]

/-- Toggling an absent key inserts its row with `completado = 1`. -/
theorem toggleClave_none {κ : Type} [DecidableEq κ]
    (db : MapaCompletado κ) (k : κ) (h : db k = none) :
    toggleClave db k k = some 1 := by
  simp [toggleClave, h]

/-- The state after `n` toggles of one key: unchanged for even `n`, inverted
for odd `n`. -/
theorem estadoClave_iter {κ : Type} [DecidableEq κ]
    (db : MapaCompletado κ) (k : κ) :
    ∀ n : Nat, estadoClave (toggleIterClave db k n) k =
      if n % 2 = 0 then estadoClave db k else ! estadoClave db k
  | 0 => by simp [toggleIterClave]
  | n + 1 => by
      have ih := estadoClave_iter db k n
      simp only [toggleIterClave, estadoClave_toggleClave, ih]
      rcases Nat.mod_two_eq_zero_or_one n with h | h
      · have h2 : (n + 1) % 2 = 1 := by omega
        simp [h, h2]
      · have h2 : (n + 1) % 2 = 0 := by omega
        simp [h, h2]

/-- Claim C1: for every user, habit and date — in both completion stores,
the `habitos` table of `src/database.py` and the `habitos_diarios` table of
`src/config.py` — two consecutive calls to `toggle_habito` return the
completion state of that key to its original value, and any odd number of
consecutive toggles inverts it. -/
theorem claim_C1 :
    (∀ (db : HabitosDb) (chat_id : Int) (fecha habito : String),
      Database.estado_habito
          (Database.toggle_habito (Database.toggle_habito db chat_id fecha habito)
            chat_id fecha habito) chat_id fecha habito
        = Database.estado_habito db chat_id fecha habito
      ∧ ∀ n : Nat, n % 2 = 1 →
          Database.estado_habito (Database.toggle_habito_n db chat_id fecha habito n)
              chat_id fecha habito
            = ! Database.estado_habito db chat_id fecha habito)
    ∧ (∀ (db : DiariosDb) (user_id habito_config_id : Int) (fecha : String),
      Config.estado_habito
          (Config.toggle_habito (Config.toggle_habito db user_id habito_config_id fecha)
            user_id habito_config_id fecha) user_id habito_config_id fecha
        = Config.estado_habito db user_id habito_config_id fecha
      ∧ ∀ n : Nat, n % 2 = 1 →
          Config.estado_habito (Config.toggle_habito_n db user_id habito_config_id fecha n)
              user_id habito_config_id fecha
            = ! Config.estado_habito db user_id habito_config_id fecha) := by
  constructor
  · intro db c f h
    constructor
    · simp [Database.estado_habito, Database.toggle_habito, estadoClave_toggleClave]
    · intro n hn
      have hiter := estadoClave_iter db (⟨c, f, h⟩ : HabitoKey) n
      simp only [Database.estado_habito, Database.toggle_habito_n, hiter, hn]
      simp
  · intro db u hc f
    constructor
    · simp [Config.estado_habito, Config.toggle_habito, estadoClave_toggleClave]
    · intro n hn
      have hiter := estadoClave_iter db (⟨u, hc, f⟩ : ClaveDiaria) n
      simp only [Config.estado_habito, Config.toggle_habito_n, hiter, hn]
      simp

/-- Witness for claim C1 at a concrete store, key and odd toggle count. -/
theorem claim_C1_witness :
    (3 % 2 = 1)
    ∧ Database.estado_habito
        (Database.toggle_habito_n (fun _ => none) 5 "2026-02-18" "leer" 3)
        5 "2026-02-18" "leer"
      = ! Database.estado_habito (fun _ => none) 5 "2026-02-18" "leer" :=
  ⟨rfl, ((claim_C1.1 (fun _ => none) 5 "2026-02-18" "leer").2 3 rfl)⟩

/-- Claim C2: in both completion stores, toggling a (user, habit, date) key
with no prior row creates the row with `completado = 1`, so the first toggle
always produces the completed state. -/
theorem claim_C2 :
    (∀ (db : HabitosDb) (chat_id : Int) (fecha habito : String),
      db ⟨chat_id, fecha, habito⟩ = none →
        Database.toggle_habito db chat_id fecha habito ⟨chat_id, fecha, habito⟩ = some 1
        ∧ Database.estado_habito (Database.toggle_habito db chat_id fecha habito)
            chat_id fecha habito = true)
    ∧ (∀ (db : DiariosDb) (user_id habito_config_id : Int) (fecha : String),
      db ⟨user_id, habito_config_id, fecha⟩ = none →
        Config.toggle_habito db user_id habito_config_id fecha
            ⟨user_id, habito_config_id, fecha⟩ = some 1
        ∧ Config.estado_habito (Config.toggle_habito db user_id habito_config_id fecha)
            user_id habito_config_id fecha = true) := by
  constructor
  · intro db c f h hnone
    refine ⟨toggleClave_none db _ hnone, ?_⟩
    simp [Database.estado_habito, Database.toggle_habito, estadoClave,
      toggleClave_none db _ hnone, truthy]
  · intro db u hc f hnone
    refine ⟨toggleClave_none db _ hnone, ?_⟩
    simp [Config.estado_habito, Config.toggle_habito, estadoClave,
      toggleClave_none db _ hnone, truthy]

/-- Witness for claim C2 on the empty store. -/
theorem claim_C2_witness :
    ((fun _ => none) : HabitosDb) ⟨5, "2026-02-18", "leer"⟩ = none
    ∧ Database.estado_habito
        (Database.toggle_habito (fun _ => none) 5 "2026-02-18" "leer")
        5 "2026-02-18" "leer" = true :=
  ⟨rfl, (claim_C2.1 (fun _ => none) 5 "2026-02-18" "leer" rfl).2⟩

/-- Claim C6: in both completion stores, toggling a key of one user changes
neither the completion state of any other user for any habit and date nor any
row whose user component differs, because every read and write of
`toggle_habito` is scoped by the user key. -/
theorem claim_C6 :
    (∀ (db : HabitosDb) (chatA chatB : Int) (fecha habito : String),
      chatB ≠ chatA →
        (∀ fecha2 habito2 : String,
          Database.estado_habito (Database.toggle_habito db chatA fecha habito)
              chatB fecha2 habito2
            = Database.estado_habito db chatB fecha2 habito2)
        ∧ ∀ k : HabitoKey, k.chat_id ≠ chatA →
            Database.toggle_habito db chatA fecha habito k = db k)
    ∧ (∀ (db : DiariosDb) (userA userB habito_config_id : Int) (fecha : String),
      userB ≠ userA →
        (∀ (habito_config_id2 : Int) (fecha2 : String),
          Config.estado_habito (Config.toggle_habito db userA habito_config_id fecha)
              userB habito_config_id2 fecha2
            = Config.estado_habito db userB habito_config_id2 fecha2)
        ∧ ∀ k : ClaveDiaria, k.user_id ≠ userA →
            Config.toggle_habito db userA habito_config_id fecha k = db k) := by
  constructor
  · intro db chatA chatB fecha habito hne
    constructor
    · intro fecha2 habito2
      apply estadoClave_toggleClave_ne
      intro heq
      exact hne (congrArg HabitoKey.chat_id heq)
    · intro k hk
      apply toggleClave_ne
      intro heq
      exact hk (congrArg HabitoKey.chat_id heq)
  · intro db userA userB habito_config_id fecha hne
    constructor
    · intro hc2 fecha2
      apply estadoClave_toggleClave_ne
      intro heq
      exact hne (congrArg ClaveDiaria.user_id heq)
    · intro k hk
      apply toggleClave_ne
      intro heq
      exact hk (congrArg ClaveDiaria.user_id heq)

/-- Witness for claim C6 with two distinct users. -/
theorem claim_C6_witness :
    (2 : Int) ≠ 1
    ∧ Database.estado_habito
        (Database.toggle_habito (fun _ => none) 1 "2026-02-18" "leer")
        2 "2026-02-18" "leer"
      = Database.estado_habito (fun _ => none) 2 "2026-02-18" "leer" :=
  ⟨by decide,
   (claim_C6.1 (fun _ => none) 1 2 "2026-02-18" "leer" (by decide)).1
     "2026-02-18" "leer"⟩

/-! ## Encouragement tier -/

/-- Counterexample to claim C3: at `completados = 0, total = 0` the selector
answers the perfect-day tier (the code compares `completados == total` without
requiring `total > 0`), not the not-started tier the claim assigns to every
`completados = 0`. -/
theorem claim_C3_counterexample :
    encouragementTier 0 0 = Tier.perfecto
    ∧ ¬ encouragementTier 0 0 = Tier.sinEmpezar := by decide

/-- Claim C3 (amended): the encouragement tier selector is a pure function of
the counts; `completados = total` yields the perfect-day tier, and — when the
higher clauses do not apply — `completados ≥ 3` yields good progress,
`0 < completados < 3` yields started and `completados = 0` with a positive
total yields not started; at `completados = total = 0` the selector yields the
perfect-day tier.  In particular (5,5) is perfect, (3,5) good progress,
(1,5) started and (0,5) not started. -/
theorem claim_C3 : ∀ completados total : Nat,
    (completados = total → encouragementTier completados total = Tier.perfecto)
    ∧ (completados ≠ total → 3 ≤ completados →
        encouragementTier completados total = Tier.buenTrabajo)
    ∧ (completados ≠ total → 0 < completados → completados < 3 →
        encouragementTier completados total = Tier.empezado)
    ∧ (completados = 0 → 0 < total →
        encouragementTier completados total = Tier.sinEmpezar)
    ∧ encouragementTier 0 0 = Tier.perfecto
    ∧ encouragementTier 5 5 = Tier.perfecto
    ∧ encouragementTier 3 5 = Tier.buenTrabajo
    ∧ encouragementTier 1 5 = Tier.empezado
    ∧ encouragementTier 0 5 = Tier.sinEmpezar := by
  intro c t
  refine ⟨?_, ?_, ?_, ?_, by decide, by decide, by decide, by decide, by decide⟩
  · intro h
    simp [encouragementTier, h]
  · intro hne h3
    simp only [encouragementTier]
    rw [if_neg hne, if_pos h3]
  · intro hne h0 h3
    simp only [encouragementTier]
    rw [if_neg hne, if_neg (by omega), if_pos h0]
  · intro h0 ht
    have hne : c ≠ t := by omega
    simp only [encouragementTier]
    rw [if_neg hne, if_neg (by omega), if_neg (by omega)]

/-- Witness for claim C3 at the concrete counts of the claim. -/
theorem claim_C3_witness :
    (3 : Nat) ≠ 5 ∧ encouragementTier 3 5 = Tier.buenTrabajo :=
  ⟨by decide, (claim_C3 3 5).2.1 (by decide) (by decide)⟩

/-! ## Weekly rollup dates -/

/-- Every month has at least one day. -/
theorem diasEnMes_pos (y : Int) (m : Nat) : 0 < diasEnMes y m := by
  unfold diasEnMes
  split_ifs <;> omega

/-- The previous calendar date of a valid date is valid. -/
theorem diaAnterior_valida {f : Fecha} (hf : fechaValida f) :
    fechaValida (diaAnterior f) := by
  obtain ⟨h1, h2, h3, h4⟩ := hf
  unfold diaAnterior fechaValida
  split_ifs with hd hm <;> dsimp only
  · exact ⟨h1, h2, by omega, by omega⟩
  · refine ⟨by omega, by omega, diasEnMes_pos _ _, le_refl _⟩
  · refine ⟨by norm_num, by norm_num, by norm_num, ?_⟩
    have h31 : diasEnMes (f.year - 1) 12 = 31 := rfl
    omega

/-- The previous calendar date is chronologically smaller. -/
theorem diaAnterior_fechaLt {f : Fecha} (hf : fechaValida f) :
    fechaLt (diaAnterior f) f := by
  obtain ⟨h1, h2, h3, h4⟩ := hf
  unfold diaAnterior fechaLt
  split_ifs with hd hm <;> dsimp only
  · exact Or.inr ⟨rfl, Or.inr ⟨rfl, by omega⟩⟩
  · exact Or.inr ⟨rfl, Or.inl (by omega)⟩
  · exact Or.inl (by omega)

/-- Calendar subtraction preserves validity. -/
theorem restarDias_valida {f : Fecha} (hf : fechaValida f) :
    ∀ n : Nat, fechaValida (restarDias f n)
  | 0 => hf
  | n + 1 => diaAnterior_valida (restarDias_valida hf n)

/-- Claim C4: for every valid base date, the weekly rollup
`get_habitos_semana` returns exactly 7 entries whose dates are the 7
consecutive calendar dates ending at the base date, in chronological
ascending order; for base date 2026-02-18 the dates are 2026-02-12 through
2026-02-18. -/
theorem claim_C4 (db : HabitosDb) (chat_id : Int) (f : Fecha)
    (hf : fechaValida f) :
    (get_habitos_semana db chat_id f).map DiaResumen.fecha = semanaFechas f
    ∧ (semanaFechas f).length = 7
    ∧ List.Chain' (fun a b => a = diaAnterior b) (semanaFechas f)
    ∧ List.Chain' fechaLt (semanaFechas f)
    ∧ (semanaFechas f).getLast? = some f
    ∧ semanaFechas ⟨2026, 2, 18⟩ =
        [⟨2026, 2, 12⟩, ⟨2026, 2, 13⟩, ⟨2026, 2, 14⟩, ⟨2026, 2, 15⟩,
         ⟨2026, 2, 16⟩, ⟨2026, 2, 17⟩, ⟨2026, 2, 18⟩] := by
  have hsem : semanaFechas f =
      [restarDias f 6, restarDias f 5, restarDias f 4, restarDias f 3,
       restarDias f 2, restarDias f 1, restarDias f 0] := rfl
  refine ⟨?_, rfl, ?_, ?_, rfl, by decide⟩
  · simp only [get_habitos_semana, semanaFechas, List.map_map]
    rfl
  · rw [hsem]
    simp only [List.chain'_cons, List.chain'_singleton, and_true]
    exact ⟨rfl, rfl, rfl, rfl, rfl, rfl⟩
  · rw [hsem]
    simp only [List.chain'_cons, List.chain'_singleton, and_true]
    exact ⟨diaAnterior_fechaLt (restarDias_valida hf 5),
           diaAnterior_fechaLt (restarDias_valida hf 4),
           diaAnterior_fechaLt (restarDias_valida hf 3),
           diaAnterior_fechaLt (restarDias_valida hf 2),
           diaAnterior_fechaLt (restarDias_valida hf 1),
           diaAnterior_fechaLt (restarDias_valida hf 0)⟩

/-- Witness for claim C4 at the concrete base date 2026-02-18. -/
theorem claim_C4_witness :
    fechaValida ⟨2026, 2, 18⟩
    ∧ (semanaFechas ⟨2026, 2, 18⟩).length = 7 :=
  ⟨by decide, (claim_C4 (fun _ => none) 0 ⟨2026, 2, 18⟩ (by decide)).2.1⟩

/-! ## Reminder dispatch -/

set_option maxHeartbeats 2000000 in
/-- Within a day, only the minute 07:00 formats to the string `"07:00"`. -/
theorem formatHHMM_eq_07 :
    ∀ h : Nat, h < 24 → ∀ m : Nat, m < 60 →
      (formatHHMM ⟨h, m⟩ = "07:00" → h = 7 ∧ m = 0) := by decide

/-- Claim C5: the 07:00 morning reminder job is configured, and for every
registered user it is dispatched on a wall-clock minute exactly when that
minute formats to `"07:00"`; it fires at 07:00 and never at 07:01 or
06:59. -/
theorem claim_C5 (usuarios : List Int) (u : Int) (t : HoraTick)
    (h24 : t.hour < 24) (h60 : t.minute < 60) (hu : u ∈ usuarios) :
    (⟨"recordatorio_manana", 7, 0, "manana"⟩ : CronJob) ∈ configurar_recordatorios
    ∧ (("manana", u) ∈ enviosEnTick usuarios t ↔ formatHHMM t = "07:00")
    ∧ ("manana", u) ∈ enviosEnTick usuarios ⟨7, 0⟩
    ∧ ("manana", u) ∉ enviosEnTick usuarios ⟨7, 1⟩
    ∧ ("manana", u) ∉ enviosEnTick usuarios ⟨6, 59⟩
    ∧ formatHHMM ⟨7, 0⟩ = "07:00"
    ∧ formatHHMM ⟨7, 1⟩ = "07:01"
    ∧ formatHHMM ⟨6, 59⟩ = "06:59" := by
  obtain ⟨h, m⟩ := t
  have hmem70 : ("manana", u) ∈ enviosEnTick usuarios ⟨7, 0⟩ := by
    have he : enviosEnTick usuarios ⟨7, 0⟩
        = usuarios.map (fun v => ("manana", v)) ++ [] := rfl
    rw [he]
    exact List.mem_append_left _ (List.mem_map_of_mem _ hu)
  refine ⟨by decide, ⟨?_, ?_⟩, hmem70, ?_, ?_, by decide, by decide, by decide⟩
  · intro hmem
    unfold enviosEnTick at hmem
    rw [List.mem_flatten] at hmem
    obtain ⟨l, hl, hml⟩ := hmem
    rw [List.mem_map] at hl
    obtain ⟨j, hj, rfl⟩ := hl
    rw [List.mem_filter] at hj
    obtain ⟨hjmem, hfire⟩ := hj
    rw [List.mem_map] at hml
    obtain ⟨v, hv, hpair⟩ := hml
    have htipo : j.tipo = "manana" := congrArg Prod.fst hpair
    simp only [configurar_recordatorios, List.mem_cons, List.not_mem_nil,
      or_false] at hjmem
    rcases hjmem with rfl | rfl | rfl | rfl
    · simp only [cronFires, Bool.and_eq_true, beq_iff_eq] at hfire
      obtain ⟨rfl, rfl⟩ := hfire
      decide
    · exact absurd htipo (by decide)
    · exact absurd htipo (by decide)
    · exact absurd htipo (by decide)
  · intro hfmt
    obtain ⟨rfl, rfl⟩ := formatHHMM_eq_07 h h24 m h60 hfmt
    exact hmem70
  · have he : enviosEnTick usuarios ⟨7, 1⟩ = [] := rfl
    rw [he]
    exact List.not_mem_nil _
  · have he : enviosEnTick usuarios ⟨6, 59⟩ = [] := rfl
    rw [he]
    exact List.not_mem_nil _

/-- Witness for claim C5 at one registered user and the 07:00 minute. -/
theorem claim_C5_witness :
    ("manana", (9 : Int)) ∈ enviosEnTick [9] ⟨7, 0⟩ :=
  (claim_C5 [9] 9 ⟨7, 0⟩ (by decide) (by decide) (by decide)).2.2.1

/-! ## Broadcast failure isolation -/

/-- Claim C7: one scan of `enviar_recordatorio` attempts delivery to every
registered user in order, whatever the per-user outcomes are; a failing
recipient yields a caught-and-logged outcome while every recipient — before
and after it — still gets its own attempt, so one failure never aborts the
tick. -/
theorem claim_C7 (usuarios : List Int) (intento : Int → Except String Unit) :
    ((enviar_recordatorio usuarios intento).map Prod.fst = usuarios)
    ∧ (∀ chat_id, chat_id ∈ usuarios → ∀ e, intento chat_id = .error e →
        (chat_id, EnvioResultado.errorRegistrado e)
          ∈ enviar_recordatorio usuarios intento)
    ∧ (∀ chat_id, chat_id ∈ usuarios → intento chat_id = .ok () →
        (chat_id, EnvioResultado.enviado) ∈ enviar_recordatorio usuarios intento) := by
  refine ⟨?_, ?_, ?_⟩
  · unfold enviar_recordatorio
    rw [List.map_map]
    have hcomp : (Prod.fst ∘ fun chat_id =>
        match intento chat_id with
        | .ok _ => (chat_id, EnvioResultado.enviado)
        | .error e => (chat_id, EnvioResultado.errorRegistrado e)) = id := by
      funext c
      simp only [Function.comp_apply, id_eq]
      cases intento c <;> rfl
    rw [hcomp, List.map_id]
  · intro c hc e he
    have h2 : (match intento c with
        | Except.ok _ => (c, EnvioResultado.enviado)
        | Except.error e2 => (c, EnvioResultado.errorRegistrado e2))
          ∈ enviar_recordatorio usuarios intento :=
      List.mem_map_of_mem _ hc
    rw [he] at h2
    exact h2
  · intro c hc he
    have h2 : (match intento c with
        | Except.ok _ => (c, EnvioResultado.enviado)
        | Except.error e2 => (c, EnvioResultado.errorRegistrado e2))
          ∈ enviar_recordatorio usuarios intento :=
      List.mem_map_of_mem _ hc
    rw [he] at h2
    exact h2

/-- Witness for claim C7: with the middle recipient failing, every user is
still attempted and the failure is recorded. -/
theorem claim_C7_witness :
    ((enviar_recordatorio [1, 2, 3]
        (fun c => if c = 2 then Except.error "chat inaccesible" else Except.ok ())).map
      Prod.fst = [1, 2, 3]) :=
  (claim_C7 [1, 2, 3]
    (fun c => if c = 2 then Except.error "chat inaccesible" else Except.ok ())).1

/-! ## Session resolution -/

/-- With pairwise distinct tokens, a stored binding resolves to its own
user id. -/
theorem resolveSession_of_mem (token : String) (uid : Int) :
    ∀ s : Sesiones, (s.map Prod.fst).Nodup → (token, uid) ∈ s →
      resolveSession s token = .ok uid := by
  intro s
  induction s with
  | nil =>
      intro _ hmem
      exact absurd hmem (List.not_mem_nil _)
  | cons head rest ih =>
      intro hnd hmem
      obtain ⟨t0, u0⟩ := head
      rw [List.map_cons, List.nodup_cons] at hnd
      by_cases ht : t0 = token
      · subst ht
        have huid : u0 = uid := by
          rcases List.mem_cons.mp hmem with heq | htail
          · exact (congrArg Prod.snd heq).symm
          · exact absurd (List.mem_map_of_mem Prod.fst htail) hnd.1
        subst huid
        unfold resolveSession
        rw [List.find?_cons_of_pos _ (by simp)]
      · have htail : (token, uid) ∈ rest := by
          rcases List.mem_cons.mp hmem with heq | htail2
          · exact absurd (congrArg Prod.fst heq).symm ht
          · exact htail2
        have hstep : resolveSession ((t0, u0) :: rest) token
            = resolveSession rest token := by
          unfold resolveSession
          rw [List.find?_cons_of_neg _ (by simp only [beq_iff_eq]; exact ht)]
        rw [hstep]
        exact ih hnd.2 htail

/-- Claim C8: session resolution returns exactly the user id a token was
issued for, and only ids of stored bindings; an unknown token always fails
with `Unauthenticated`, and a freshly created session resolves to its own
user. -/
theorem claim_C8 (s : Sesiones) (token : String)
    (hnodup : (s.map Prod.fst).Nodup) :
    (∀ user_id : Int, (token, user_id) ∈ s →
        resolveSession s token = .ok user_id)
    ∧ (∀ user_id : Int, resolveSession s token = .ok user_id →
        (token, user_id) ∈ s)
    ∧ ((∀ user_id : Int, (token, user_id) ∉ s) →
        resolveSession s token = .error .unauthenticated)
    ∧ (∀ user_id : Int,
        resolveSession (createSession s token user_id) token = .ok user_id) := by
  refine ⟨?_, ?_, ?_, ?_⟩
  · intro uid hmem
    exact resolveSession_of_mem token uid s hnodup hmem
  · intro uid hres
    unfold resolveSession at hres
    cases hf : s.find? (fun p => p.1 == token) with
    | none =>
        rw [hf] at hres
        cases hres
    | some p =>
        rw [hf] at hres
        have hp := List.mem_of_find?_eq_some hf
        have hpt : (p.1 == token) = true := (List.find?_eq_some.mp hf).1
        rw [beq_iff_eq] at hpt
        have hpu : p.2 = uid := by
          cases hres
          rfl
        obtain ⟨p1, p2⟩ := p
        rw [show p1 = token from hpt, show p2 = uid from hpu] at hp
        exact hp
  · intro hall
    unfold resolveSession
    have hnone : List.find? (fun p => p.1 == token) s = none := by
      rw [List.find?_eq_none]
      intro x hx
      obtain ⟨x1, x2⟩ := x
      simp only [beq_iff_eq]
      intro hcontra
      exact hall x2 (by rw [← hcontra]; exact hx)
    rw [hnone]
  · intro uid
    unfold resolveSession createSession
    rw [List.find?_cons_of_pos _ (by simp)]

/-- Witness for claim C8 on a concrete two-token store. -/
theorem claim_C8_witness :
    resolveSession [("tokA", 1), ("tokB", 2)] "tokA" = .ok 1 :=
  (claim_C8 [("tokA", 1), ("tokB", 2)] "tokA" (by decide)).1 1 (by decide)

/-! ## Duplicate registration -/

/-- Claim C9: registering an email that already has an account returns
`ok = False` with the human-readable duplicate-account message — the
integrity error is translated, not propagated — and leaves the user store
(including the existing account) unchanged. -/
theorem claim_C9 (st : UsersState) (email password : String)
    (nombre : Option String) (salt : String)
    (hashFn : String → String → String) (ahora : String)
    (hdup : ∃ r ∈ st.users, r.email = (email.toLower).trim) :
    (registrar_usuario st email password nombre salt hashFn ahora).1.ok = false
    ∧ (registrar_usuario st email password nombre salt hashFn ahora).1.error
        = some "Ya existe una cuenta con ese email"
    ∧ (registrar_usuario st email password nombre salt hashFn ahora).2 = st := by
  obtain ⟨r, hr, he⟩ := hdup
  have hany : st.users.any (fun r2 => r2.email == (email.toLower).trim) = true := by
    rw [List.any_eq_true]
    exact ⟨r, hr, by rw [beq_iff_eq]; exact he⟩
  refine ⟨?_, ?_, ?_⟩ <;> simp [registrar_usuario, hany]

/-- Witness for claim C9 on a store that already holds the email. -/
theorem claim_C9_witness :
    (registrar_usuario
        { users := [{ id := 1, email := ("Ana@Mail.com".toLower).trim,
                      password_hash := "h", salt := "s", nombre := none,
                      fecha_registro := "2026-01-01" }],
          user_config := [1], next_id := 2 }
        "Ana@Mail.com" "secreta" none "s2" (fun a b => a ++ b) "2026-02-18").1.ok
      = false :=
  (claim_C9 _ "Ana@Mail.com" "secreta" none "s2" (fun a b => a ++ b) "2026-02-18"
    ⟨{ id := 1, email := ("Ana@Mail.com".toLower).trim, password_hash := "h",
       salt := "s", nombre := none, fecha_registro := "2026-01-01" },
     by simp, rfl⟩).1

/-! ## Web toggle whitelist -/

/-- Claim C10: for every date string and every habit name outside the fixed
whitelist, the toggle endpoint answers HTTP 400 and leaves the whole state —
in particular the `habitos` table — untouched, so no completion row is ever
created for such a name through the web API. -/
theorem claim_C10 (st : ApiEstado) (fecha habito : String)
    (hinv : habito ∉ habitos_validos) :
    (toggle_habito_api st fecha habito).1
        = ApiRespuesta.httpError 400 detalle_habito_no_valido
    ∧ (toggle_habito_api st fecha habito).2 = st
    ∧ (toggle_habito_api st fecha habito).2.habitos = st.habitos := by
  unfold toggle_habito_api
  rw [if_pos hinv]
  exact ⟨rfl, rfl, rfl⟩

/-- Witness for claim C10 at the habit name `fumar`. -/
theorem claim_C10_witness :
    (toggle_habito_api { usuarios := [7], habitos := fun _ => none }
        "2026-02-18" "fumar").1
      = ApiRespuesta.httpError 400 detalle_habito_no_valido :=
  (claim_C10 { usuarios := [7], habitos := fun _ => none } "2026-02-18" "fumar"
    (by decide)).1

end WebDefinitiva
